import Mathlib

/-!
Shallow embedding of src/scripts/dashboard.py (repository ij5/dashboard).

The module is a scripting client for a terminal dashboard: each builder
function assembles a payload dict, wraps it into a flat FrameData envelope
whose value field is the JSON serialization of the payload, and forwards it
to the transport primitive dashboard_sys.send.  Module load replaces
sys.stdout and sys.stderr with a FileOut capture adapter.

Python values that appear in payloads are modelled by the Json inductive;
floats are modelled as rationals (the textual rendering of a non-integral
float literal is abstracted, no statement below depends on it).  The
transport is modelled as a trace of events on a single channel.
-/

namespace Dashboard

/-- JSON values as produced by the Python builders: strings, ints, floats
(modelled as rationals), booleans, null, arrays (also the image of Python
tuples under json.dumps) and insertion-ordered objects. -/
inductive Json where
  | str (s : String)
  | int (n : Int)
  | float (q : Rat)
  | bool (b : Bool)
  | null
  | arr (elems : List Json)
  | obj (fields : List (String × Json))

/-- One hexadecimal digit, lower case, as json.dumps prints it. -/
def hexDigit (n : Nat) : String :=
  if n = 0 then "0" else if n = 1 then "1" else if n = 2 then "2"
  else if n = 3 then "3" else if n = 4 then "4" else if n = 5 then "5"
  else if n = 6 then "6" else if n = 7 then "7" else if n = 8 then "8"
  else if n = 9 then "9" else if n = 10 then "a" else if n = 11 then "b"
  else if n = 12 then "c" else if n = 13 then "d" else if n = 14 then "e"
  else "f"

/-- Escaping of one character inside a JSON string literal with
ensure_ascii=False: only the quote, the backslash and control characters
are escaped; every other character, in particular every non-ASCII
character, is kept literally. -/
def escapeChar (c : Char) : String :=
  if c = '"' then "\\\""
  else if c = '\\' then "\\\\"
  else if c = '\n' then "\\n"
  else if c = '\t' then "\\t"
  else if c = '\r' then "\\r"
  else if c = '\x08' then "\\b"
  else if c = '\x0c' then "\\f"
  else if c.toNat < 0x20 then "\\u00" ++ hexDigit (c.toNat / 16) ++ hexDigit (c.toNat % 16)
  else String.singleton c

/-- Escape a list of characters one by one. -/
def escapeList : List Char → String
  | [] => ""
  | c :: cs => escapeChar c ++ escapeList cs

/-- Body of a JSON string literal under ensure_ascii=False. -/
def escapeString (s : String) : String :=
  escapeList s.data

/-- Textual rendering of a float payload value.  Integral floats print as
in Python (10.0 renders as "10.0"); the decimal expansion of non-integral
rationals is abstracted as num/den, which no envelope below exercises. -/
def floatRepr (q : Rat) : String :=
  if q.den = 1 then toString q.num ++ ".0"
  else toString q.num ++ "/" ++ toString q.den

mutual

/-- json.dumps(value, ensure_ascii=False) with the default separators
of the Python json module, namely ", " between items and ": " after keys. -/
def dumps : Json → String
  | .str s => "\"" ++ escapeString s ++ "\""
  | .int n => toString n
  | .float q => floatRepr q
  | .bool b => if b then "true" else "false"
  | .null => "null"
  | .arr es => "[" ++ dumpsArr es ++ "]"
  | .obj fs => "\x7b" ++ dumpsObj fs ++ "\x7d"

/-- Comma separated serialization of array elements. -/
def dumpsArr : List Json → String
  | [] => ""
  | [e] => dumps e
  | e :: es => dumps e ++ ", " ++ dumpsArr es

/-- Comma separated serialization of the key/value pairs of an object,
in insertion order. -/
def dumpsObj : List (String × Json) → String
  | [] => ""
  | [kv] => "\"" ++ escapeString kv.1 ++ "\": " ++ dumps kv.2
  | kv :: kvs => "\"" ++ escapeString kv.1 ++ "\": " ++ dumps kv.2 ++ ", " ++ dumpsObj kvs

end

/-- The envelope dataclass of dashboard.py, lines 7-12: a flat record of
four string fields, declared in the order action, name, value, id. -/
structure FrameData where
  action : String
  name : String
  value : String
  id : String
deriving Repr, DecidableEq

/-- Python values that can reach the capture adapter and the print
wrapper: strings, and some non-string values to witness the str() coercion. -/
inductive PyVal where
  | str (s : String)
  | int (n : Int)
  | bool (b : Bool)
  | none
deriving Repr, DecidableEq

/-- Python str() on the modelled values. -/
def pyStr : PyVal → String
  | .str s => s
  | .int n => toString n
  | .bool b => if b then "True" else "False"
  | .none => "None"

/-- One message on the single transport channel: either an envelope handed
to dashboard_sys.send, or text handed to dashboard_sys.print, or a fetch
request. -/
inductive Event where
  | frame (f : FrameData)
  | printFrame (text : String)
  | fetchReq (method url : String)
deriving Repr, DecidableEq

/-- Convenience constructor naming the four envelope fields in the
declaration order of the dataclass: action, name, value, id. -/
def mkFrame (action name value id : String) : FrameData :=
  { action := action, name := name, value := value, id := id }

/-- The transport primitive dashboard_sys.send: emits the envelope on the
channel. -/
def dashboard_sys_send (f : FrameData) : List Event :=
  [Event.frame f]

/-- Modelled from the spec: dashboard_sys.print, the transport primitive
behind the print wrapper, is not under src (only its caller is).  Sections
3 and 4.5 of the spec state that written text is translated into a
print-style envelope sent over the same channel as draw commands, so the
primitive is modelled as emitting a print event on that channel. -/
def dashboard_sys_print (text : String) : List Event :=
  [Event.printFrame text]

/-- Modelled from the spec: dashboard_sys.fetch is an external transport
primitive; only the pass-through wrapper is in src. -/
def dashboard_sys_fetch (method url : String) : List Event :=
  [Event.fetchReq method url]

/-- dashboard.py line 15: fetch(method, url), a pass-through to the
transport. -/
def fetch (method url : String) : List Event :=
  dashboard_sys_fetch method url

/-- dashboard.py line 19: print(text) coerces its argument with str()
and forwards it to dashboard_sys.print. -/
def print (text : PyVal) : List Event :=
  dashboard_sys_print (pyStr text)

/-- dashboard.py line 23: send(id, action, name, value) wraps the payload
into a FrameData envelope whose value field is
json.dumps(value, ensure_ascii=False), and hands it to dashboard_sys.send. -/
def send (id action name : String) (value : Json) : List Event :=
  dashboard_sys_send { id := id, action := action, name := name, value := dumps value }

/-- dashboard.py line 29: image(id, name, filepath). -/
def image (id name filepath : String) : List Event :=
  send id "image" name (.obj [("filepath", .str filepath)])

/-- dashboard.py line 40: text(id, name, text, *, color="white", align="center"). -/
def text (id name : String) (text : String) (color : String := "white")
    (align : String := "center") : List Event :=
  send id "text" name (.obj [("text", .str text), ("color", .str color), ("align", .str align)])

/-- dashboard.py line 44: styled_text(id, name, text, *, color="white",
align="center"); the text argument is a list of styled-line payloads. -/
def styled_text (id name : String) (text : List Json) (color : String := "white")
    (align : String := "center") : List Event :=
  send id "color_text" name
    (.obj [("color", .str color), ("lines", .arr text), ("align", .str align)])

/-- dashboard.py line 48: make_text, a pure payload constructor returning
the styled-line dict; it sends nothing. -/
def make_text (text : String) (color : String := "white") (bold : Bool := false)
    (underline : Bool := false) (italic : Bool := false)
    (crossline : Bool := false) : Json :=
  .obj [("text", .str text), ("color", .str color), ("bold", .bool bold),
        ("underline", .bool underline), ("italic", .bool italic),
        ("crossline", .bool crossline)]

/-- JSON image of one (x, y) data point: json.dumps turns the Python tuple
into a two element array. -/
def pairJson (p : Rat × Rat) : Json :=
  .arr [.float p.1, .float p.2]

/-- JSON image of a bounds tuple. -/
def boundsJson (b : Rat × Rat) : Json :=
  .arr [.float b.1, .float b.2]

/-- JSON image of a list of axis labels. -/
def labelsJson (ls : List String) : Json :=
  .arr (ls.map Json.str)

/-- dashboard.py line 66: chart(id, name, data, *, description="",
graph_type="line", marker_type="braille", color="white", x_title="",
x_color="blue", x_bounds=(0.,10.), x_labels=[], y_title="", y_color="red",
y_bounds=(0.,10.), y_labels=[]). -/
def chart (id name : String) (data : List (Rat × Rat)) (description : String := "")
    (graph_type : String := "line") (marker_type : String := "braille")
    (color : String := "white") (x_title : String := "") (x_color : String := "blue")
    (x_bounds : Rat × Rat := ((0 : Rat), (10 : Rat))) (x_labels : List String := [])
    (y_title : String := "") (y_color : String := "red")
    (y_bounds : Rat × Rat := ((0 : Rat), (10 : Rat)))
    (y_labels : List String := []) : List Event :=
  send id "chart" name (.obj [
    ("data", .arr (data.map pairJson)),
    ("name", .str name),
    ("description", .str description),
    ("graph_type", .str graph_type),
    ("marker_type", .str marker_type),
    ("color", .str color),
    ("x_title", .str x_title),
    ("x_color", .str x_color),
    ("x_bounds", boundsJson x_bounds),
    ("x_labels", labelsJson x_labels),
    ("y_title", .str y_title),
    ("y_color", .str y_color),
    ("y_bounds", boundsJson y_bounds),
    ("y_labels", labelsJson y_labels)])

/-- dashboard.py line 101: big_text(id, name, text, *, color="white",
align="center"). -/
def big_text (id name : String) (text : String) (color : String := "white")
    (align : String := "center") : List Event :=
  send id "big" name (.obj [("text", .str text), ("color", .str color), ("align", .str align)])

/-- dashboard.py line 105: reload_scripts(). -/
def reload_scripts : List Event :=
  send "reload" "reload" "reload" (.obj [])

/-- dashboard.py line 109: todo_add(id, text, by, deadline); the name
field of the envelope is the id argument itself.  The source names the
author argument by, a keyword in Lean, so it is rendered by_ here. -/
def todo_add (id : String) (text by_ : String) (deadline : Int) : List Event :=
  send id "todo_add" id (.obj [("text", .str text), ("by", .str by_), ("deadline", .int deadline)])

/-- dashboard.py line 112: todo_done(index). -/
def todo_done (index : Int) : List Event :=
  send "todo" "todo_done" "" (.obj [("index", .int index)])

/-- dashboard.py line 116: todo_del(index). -/
def todo_del (index : Int) : List Event :=
  send "todo" "todo_del" "" (.obj [("index", .int index)])

/-- dashboard.py line 120: exit(). -/
def exit : List Event :=
  send "exit" "exit" "" (.obj [])

/-- dashboard.py line 124: FileOut.write(text) forwards its argument to
the module level print wrapper. -/
def FileOut_write (text : PyVal) : List Event :=
  print text

/-- Which object a standard stream variable of the process points at. -/
inductive Sink where
  | hostStdout
  | hostStderr
  | fileOut
deriving Repr, DecidableEq

/-- The module level mutable bindings the script can observe: the two
standard stream variables of sys. -/
structure SysState where
  stdout : Sink
  stderr : Sink
deriving Repr, DecidableEq

/-- Observable state of the process: the sys bindings plus the trace of
events emitted so far on the single transport channel. -/
structure ModuleState where
  sys : SysState
  trace : List Event
deriving Repr, DecidableEq

/-- dashboard.py lines 130-131, executed once at import time: both
sys.stdout and sys.stderr are reassigned to FileOut instances. -/
def moduleLoad (s : ModuleState) : ModuleState :=
  { s with sys := { stdout := Sink.fileOut, stderr := Sink.fileOut } }

/-- One call to a public operation of the module after load, with its
arguments. -/
inductive Op where
  | fetchOp (method url : String)
  | printOp (text : PyVal)
  | sendOp (id action name : String) (value : Json)
  | imageOp (id name filepath : String)
  | textOp (id name content color align : String)
  | styledTextOp (id name : String) (content : List Json) (color align : String)
  | makeTextOp (content color : String) (bold underline italic crossline : Bool)
  | chartOp (id name : String) (data : List (Rat × Rat))
      (description graph_type marker_type color x_title x_color : String)
      (x_bounds : Rat × Rat) (x_labels : List String) (y_title y_color : String)
      (y_bounds : Rat × Rat) (y_labels : List String)
  | bigTextOp (id name content color align : String)
  | reloadOp
  | todoAddOp (id content author : String) (deadline : Int)
  | todoDoneOp (index : Int)
  | todoDelOp (index : Int)
  | exitOp
  | writeOp (text : PyVal)

/-- The events a call emits on the channel.  make_text only returns a
payload value and emits nothing. -/
def emit : Op → List Event
  | .fetchOp method url => fetch method url
  | .printOp t => print t
  | .sendOp id action name value => send id action name value
  | .imageOp id name filepath => image id name filepath
  | .textOp id name content color align => text id name content color align
  | .styledTextOp id name content color align => styled_text id name content color align
  | .makeTextOp _ _ _ _ _ _ => []
  | .chartOp id name data description graph_type marker_type color x_title x_color
      x_bounds x_labels y_title y_color y_bounds y_labels =>
      chart id name data description graph_type marker_type color x_title x_color
        x_bounds x_labels y_title y_color y_bounds y_labels
  | .bigTextOp id name content color align => big_text id name content color align
  | .reloadOp => reload_scripts
  | .todoAddOp id content author deadline => todo_add id content author deadline
  | .todoDoneOp index => todo_done index
  | .todoDelOp index => todo_del index
  | .exitOp => exit
  | .writeOp t => FileOut_write t

/-- Effect of one call on the observable state: the emitted events are
appended to the channel trace; no operation of the module assigns any
module level binding, so sys is untouched. -/
def applyOp (op : Op) (s : ModuleState) : ModuleState :=
  { s with trace := s.trace ++ emit op }

/-- Effect of a sequence of calls, in order. -/
def runOps (ops : List Op) (s : ModuleState) : ModuleState :=
  ops.foldl (fun s op => applyOp op s) s

/-- Running any sequence of calls leaves the sys bindings unchanged. -/
theorem runOps_sys (ops : List Op) (s : ModuleState) : (runOps ops s).sys = s.sys := by
  induction ops generalizing s with
  | nil => rfl
  | cons op ops ih => exact (ih (applyOp op s)).trans rfl

/-- Escaping a list of characters that all escape to themselves is the
identity. -/
theorem escapeList_eq_mk (l : List Char)
    (h : ∀ c ∈ l, escapeChar c = String.singleton c) :
    escapeList l = String.mk l := by
  induction l with
  | nil => rfl
  | cons c cs ih =>
    have hc := h c (List.mem_cons_self c cs)
    have hcs := ih (fun d hd => h d (List.mem_cons_of_mem c hd))
    rw [escapeList, hc, hcs]
    rfl

/-- C1: every call to send transmits exactly one envelope of the flat
(id, action, name, value) shape whose value field is the JSON
serialization of the payload dict as a string, with ensure_ascii=False
semantics: the serializer escapes only the quote, the backslash and
control characters, so every non-ASCII character of any payload string is
kept literally, and a string all of whose characters keep themselves is
embedded unchanged. -/
theorem send_envelope_shape_and_ensure_ascii
    (id action name : String) (value : Json) :
    send id action name value =
      [Event.frame { action := action, name := name, value := dumps value, id := id }]
    ∧ (∀ c : Char, 0x80 ≤ c.toNat → escapeChar c = String.singleton c)
    ∧ (∀ s : String, (∀ c ∈ s.data, escapeChar c = String.singleton c) →
        escapeString s = s) := by
  refine ⟨rfl, ?_, ?_⟩
  · intro c hc
    have h1 : c ≠ '"' := by rintro rfl; exact absurd hc (by decide)
    have h2 : c ≠ '\\' := by rintro rfl; exact absurd hc (by decide)
    have h3 : c ≠ '\n' := by rintro rfl; exact absurd hc (by decide)
    have h4 : c ≠ '\t' := by rintro rfl; exact absurd hc (by decide)
    have h5 : c ≠ '\r' := by rintro rfl; exact absurd hc (by decide)
    have h6 : c ≠ '\x08' := by rintro rfl; exact absurd hc (by decide)
    have h7 : c ≠ '\x0c' := by rintro rfl; exact absurd hc (by decide)
    have h8 : ¬ c.toNat < 0x20 := by omega
    simp only [escapeChar, if_neg h1, if_neg h2, if_neg h3, if_neg h4, if_neg h5,
      if_neg h6, if_neg h7, if_neg h8]
  · intro s hs
    cases s with
    | mk data => exact escapeList_eq_mk data hs

/-- Witness for C1 at a concrete call: a Korean payload character passes
through the serializer unescaped and the envelope shape is as stated. -/
theorem send_envelope_shape_and_ensure_ascii_witness :
    send "w" "text" "n" (Json.str "가") =
      [Event.frame { action := "text", name := "n", value := "\"가\"", id := "w" }]
    ∧ escapeChar '한' = String.singleton '한'
    ∧ escapeString "안녕" = "안녕" :=
  ⟨((send_envelope_shape_and_ensure_ascii "w" "text" "n" (Json.str "가")).1).trans (by decide),
   (send_envelope_shape_and_ensure_ascii "w" "text" "n" (Json.str "가")).2.1 '한' (by decide),
   (send_envelope_shape_and_ensure_ascii "w" "text" "n" (Json.str "가")).2.2 "안녕" (by decide)⟩

/-- C2: after module load both sys.stdout and sys.stderr are the capture
adapter, and every write(text) call on the adapter appends a print style
event carrying str(text) to the same channel trace that carries the draw
envelopes. -/
theorem moduleLoad_redirects_and_write_prints (s : ModuleState) (v : PyVal) :
    (moduleLoad s).sys.stdout = Sink.fileOut
    ∧ (moduleLoad s).sys.stderr = Sink.fileOut
    ∧ applyOp (Op.writeOp v) s =
        { s with trace := s.trace ++ [Event.printFrame (pyStr v)] } :=
  ⟨rfl, rfl, rfl⟩

/-- C3: todo_add sends exactly one envelope with action todo_add, whose
name field is the id argument itself, and whose payload is exactly the
dict of text, by and deadline. -/
theorem todo_add_envelope (id content by_ : String) (deadline : Int) :
    todo_add id content by_ deadline =
      [Event.frame (mkFrame "todo_add" id
        (dumps (Json.obj [("text", Json.str content), ("by", Json.str by_),
          ("deadline", Json.int deadline)])) id)] :=
  rfl

/-- C4: builder calls omitting the optional arguments send the documented
defaults: color white and align center for text, styled_text and big_text;
graph_type line, marker_type braille and bounds (0, 10) for chart. -/
theorem builder_defaults (id name content : String) (data : List (Rat × Rat))
    (lines : List Json) :
    text id name content =
      [Event.frame (mkFrame "text" name
        (dumps (Json.obj [("text", .str content), ("color", .str "white"),
          ("align", .str "center")])) id)]
    ∧ styled_text id name lines =
      [Event.frame (mkFrame "color_text" name
        (dumps (Json.obj [("color", .str "white"), ("lines", .arr lines),
          ("align", .str "center")])) id)]
    ∧ big_text id name content =
      [Event.frame (mkFrame "big" name
        (dumps (Json.obj [("text", .str content), ("color", .str "white"),
          ("align", .str "center")])) id)]
    ∧ chart id name data =
      [Event.frame (mkFrame "chart" name
        (dumps (Json.obj [
          ("data", .arr (data.map pairJson)),
          ("name", .str name),
          ("description", .str ""),
          ("graph_type", .str "line"),
          ("marker_type", .str "braille"),
          ("color", .str "white"),
          ("x_title", .str ""),
          ("x_color", .str "blue"),
          ("x_bounds", boundsJson ((0 : Rat), (10 : Rat))),
          ("x_labels", labelsJson []),
          ("y_title", .str ""),
          ("y_color", .str "red"),
          ("y_bounds", boundsJson ((0 : Rat), (10 : Rat))),
          ("y_labels", labelsJson [])])) id)] :=
  ⟨rfl, rfl, rfl, rfl⟩

/-- C5: a chart call sends one envelope whose payload has exactly the
fourteen documented fields with the argument values, and its data field is
the JSON image of the data argument unchanged: every pair of the argument,
in particular one outside the bounds, appears in the serialized array. -/
theorem chart_payload_exact_and_data_unchanged (id name : String)
    (data : List (Rat × Rat))
    (description graph_type marker_type color x_title x_color : String)
    (x_bounds : Rat × Rat) (x_labels : List String) (y_title y_color : String)
    (y_bounds : Rat × Rat) (y_labels : List String) :
    chart id name data description graph_type marker_type color x_title x_color
        x_bounds x_labels y_title y_color y_bounds y_labels =
      [Event.frame (mkFrame "chart" name
        (dumps (Json.obj [
          ("data", .arr (data.map pairJson)),
          ("name", .str name),
          ("description", .str description),
          ("graph_type", .str graph_type),
          ("marker_type", .str marker_type),
          ("color", .str color),
          ("x_title", .str x_title),
          ("x_color", .str x_color),
          ("x_bounds", boundsJson x_bounds),
          ("x_labels", labelsJson x_labels),
          ("y_title", .str y_title),
          ("y_color", .str y_color),
          ("y_bounds", boundsJson y_bounds),
          ("y_labels", labelsJson y_labels)])) id)]
    ∧ ∀ p ∈ data, pairJson p ∈ data.map pairJson :=
  ⟨rfl, fun _ hp => List.mem_map_of_mem pairJson hp⟩

/-- Witness for C5: the point (50, 50), far outside the default (0, 10)
bounds, still appears in the serialized data array. -/
theorem chart_payload_exact_witness :
    pairJson ((50 : Rat), (50 : Rat)) ∈ [((50 : Rat), (50 : Rat))].map pairJson :=
  (chart_payload_exact_and_data_unchanged "c" "n" [((50 : Rat), (50 : Rat))] ""
      "line" "braille" "white" "" "blue" ((0 : Rat), (10 : Rat)) [] "" "red"
      ((0 : Rat), (10 : Rat)) []).2
    ((50 : Rat), (50 : Rat)) (List.mem_singleton.mpr rfl)

/-- C6: make_text is a pure constructor returning exactly the dict of
text, color and the four style flags, whose flags default to false and
color to white; styled_text sends one color_text envelope whose payload is
exactly the dict of color, lines and align, with the lines list embedded
as given, in order. -/
theorem make_text_pure_and_styled_text_lines
    (content tcolor : String) (b u i cr : Bool)
    (id name : String) (lines : List Json) (color align : String) :
    make_text content tcolor b u i cr =
      Json.obj [("text", .str content), ("color", .str tcolor), ("bold", .bool b),
        ("underline", .bool u), ("italic", .bool i), ("crossline", .bool cr)]
    ∧ make_text content =
      Json.obj [("text", .str content), ("color", .str "white"), ("bold", .bool false),
        ("underline", .bool false), ("italic", .bool false), ("crossline", .bool false)]
    ∧ styled_text id name lines color align =
      [Event.frame (mkFrame "color_text" name
        (dumps (Json.obj [("color", .str color), ("lines", .arr lines),
          ("align", .str align)])) id)] :=
  ⟨rfl, rfl, rfl⟩

/-- C7: todo_done and todo_del each send one envelope with payload exactly
the index, under the fixed key id todo with empty name; reload_scripts and
exit each send one envelope with the empty payload, under the fixed keys
id and name reload, and id exit with empty name. -/
theorem fixed_key_operations (index : Int) :
    todo_done index =
      [Event.frame (mkFrame "todo_done" ""
        (dumps (Json.obj [("index", Json.int index)])) "todo")]
    ∧ todo_del index =
      [Event.frame (mkFrame "todo_del" ""
        (dumps (Json.obj [("index", Json.int index)])) "todo")]
    ∧ reload_scripts =
      [Event.frame (mkFrame "reload" "reload" (dumps (Json.obj [])) "reload")]
    ∧ exit =
      [Event.frame (mkFrame "exit" "" (dumps (Json.obj [])) "exit")]
    ∧ dumps (Json.obj []) = "\x7b\x7d" :=
  ⟨rfl, rfl, rfl, rfl, rfl⟩

/-- C8: no call mutates shared state: every operation leaves the sys
bindings unchanged and only appends its events to the trace, and the
appended events depend only on the arguments, so two calls with equal
arguments produce equal envelopes from any two states. -/
theorem builders_never_mutate_shared_state (op : Op) (s s2 : ModuleState) :
    (applyOp op s).sys = s.sys
    ∧ (applyOp op s).trace = s.trace ++ emit op
    ∧ (applyOp op s).trace.drop s.trace.length =
        (applyOp op s2).trace.drop s2.trace.length := by
  refine ⟨rfl, rfl, ?_⟩
  show (s.trace ++ emit op).drop s.trace.length =
    (s2.trace ++ emit op).drop s2.trace.length
  rw [List.drop_left, List.drop_left]

/-- C9: the module offers no operation that restores sys.stdout or
sys.stderr: after load, every sequence of calls to the public operations
leaves both bound to the capture adapter. -/
theorem no_unredirect_operation (s : ModuleState) (ops : List Op) :
    (runOps ops (moduleLoad s)).sys.stdout = Sink.fileOut
    ∧ (runOps ops (moduleLoad s)).sys.stderr = Sink.fileOut :=
  ⟨(congrArg SysState.stdout (runOps_sys ops (moduleLoad s))).trans rfl,
   (congrArg SysState.stderr (runOps_sys ops (moduleLoad s))).trans rfl⟩

/-- C10: print, and hence FileOut.write, is total on every modelled Python
value: the argument is coerced with str() before forwarding, so non-string
inputs such as ints, booleans and None are forwarded as their str() text
rather than raising. -/
theorem print_total_via_str (v : PyVal) (n : Int) (b : Bool) :
    print v = [Event.printFrame (pyStr v)]
    ∧ FileOut_write v = [Event.printFrame (pyStr v)]
    ∧ print (PyVal.int n) = [Event.printFrame (toString n)]
    ∧ print (PyVal.bool b) = [Event.printFrame (if b then "True" else "False")]
    ∧ print PyVal.none = [Event.printFrame "None"] :=
  ⟨rfl, rfl, rfl, rfl, rfl⟩

end Dashboard
